import Mathlib

/-!
Verification of the cricket-mcp-server tool suite (src/cricket_server.py)
against its natural-language specification.

The Python tools are shallowly embedded as pure Lean functions.  Network
and HTML-parsing boundaries (`requests.get`, `googlesearch.search`,
BeautifulSoup node lookup) are modelled as explicit oracle arguments:
a fetch oracle maps a URL to either a failure (the stringified exception
message the tool interpolates into its error record) or a document value
holding exactly the node texts the code reads.  Functions that perform
network requests additionally return a trace of the requests they issued,
so "no network call happens on this path" is the statement that the trace
is empty.  Python exceptions that the code does NOT catch are modelled
with `Except PyErr`; exceptions the code catches never escape the
embedding.  Machine strings are Lean `String`s; Python `str.strip`,
`str.lower`, `in`, `startswith` and the two regexes used by the code are
reimplemented character-by-character below (ASCII reading of `\d`/`\s`,
which is what the scraped pages contain).
-/

/-! ## Python string primitives -/

/-- `[A-Z]` of the marker regex in `_clean_comm_text`. -/
def isPyUpper (c : Char) : Bool := 'A' ≤ c && c ≤ 'Z'

/-- `\d` (ASCII digits, which is all the code ever meets). -/
def isPyDigit (c : Char) : Bool := '0' ≤ c && c ≤ '9'

/-- `\s` / `str.strip()` whitespace (ASCII subset). -/
def isPySpace (c : Char) : Bool :=
  c = ' ' || c = '\t' || c = '\n' || c = '\r' || c = '\x0b' || c = '\x0c'

/-- Python `str.strip()` on a character list: drop whitespace at both ends. -/
def pyStripChars (l : List Char) : List Char :=
  ((l.dropWhile isPySpace).reverse.dropWhile isPySpace).reverse

/-- Python `str.strip()`. -/
def pyStrip (s : String) : String := ⟨pyStripChars s.toList⟩

/-- Does `pat` occur as a contiguous substring of the character list? -/
def hasSubChars (pat : List Char) : List Char → Bool
  | [] => pat.isEmpty
  | c :: cs => pat.isPrefixOf (c :: cs) || hasSubChars pat cs

/-- Python `pat in s` (substring containment). -/
def containsSub (s pat : String) : Bool := hasSubChars pat.toList s.toList

/-- Python `s.startswith(p)`. -/
def pyStartsWith (s p : String) : Bool := p.toList.isPrefixOf s.toList

/-- Python `s.lower()` (ASCII case mapping, which is what the pages
carry). -/
def pyLower (s : String) : String := ⟨s.toList.map Char.toLower⟩

/-- Python `s.rstrip("/")`: drop all trailing slashes. -/
def rstripSlash (s : String) : String :=
  ⟨(s.toList.reverse.dropWhile (fun c => c = '/')).reverse⟩

/-! ## `_clean_comm_text` (cricket_server.py lines 564-569)

`t = re.sub(r"[A-Z]\d\$", "", text)` followed by
`t = re.sub(r"\s+", " ", t).strip()`. -/

/-- `re.sub(r"[A-Z]\d\$", "", ·)`: scan left to right; at each position,
if the three-character marker matches, consume it (non-overlapping),
otherwise emit the character and advance by one. -/
def removeMarkers : List Char → List Char
  | c :: d :: '$' :: rest2 =>
    if isPyUpper c && isPyDigit d then removeMarkers rest2
    else c :: removeMarkers (d :: '$' :: rest2)
  | c :: rest => c :: removeMarkers rest
  | [] => []

/-- `re.sub(r"\s+", " ", ·)`: each maximal whitespace run becomes one
space.  The flag records whether the previous character was whitespace. -/
def collapseWsAux : Bool → List Char → List Char
  | _, [] => []
  | prevWs, c :: rest =>
    if isPySpace c then
      if prevWs then collapseWsAux true rest
      else ' ' :: collapseWsAux true rest
    else c :: collapseWsAux false rest

/-- The commentary text normalizer `_clean_comm_text`:
strip `[A-Z]\d\$` markers, collapse whitespace runs, trim ends. -/
def _clean_comm_text (text : String) : String :=
  ⟨pyStripChars (collapseWsAux false (removeMarkers text.toList))⟩

/-! ## URL resolution

`get_live_commentary` line 618 prefixes the site origin only for
root-relative hrefs; `get_cricket_schedule` line 207 (and
`get_cricket_news` line 401) prefix unconditionally. -/

/-- Line 618: `("https://www.cricbuzz.com" + a["href"]) if
a["href"].startswith("/") else a["href"]`. -/
def resolveHref (href : String) : String :=
  if pyStartsWith href "/" then "https://www.cricbuzz.com" ++ href else href

/-! ## `get_cricket_schedule` entry construction (lines 199-213)

Only the part the spec's `resolveUrl` claim cites is needed: per match
block, an anchor yields the entry; a truthy `href` suffix is prefixed with
the origin unconditionally. -/

structure SchedAnchor where
  text : String
  href : Option String
deriving DecidableEq

structure SchedMatch where
  anchor : Option SchedAnchor
  venue : Option String
deriving DecidableEq

structure MatchEntry where
  date : String
  description : String
  url : Option String
  venue : Option String
deriving DecidableEq

/-- One match block of the schedule page (lines 199-213): no anchor means
no entry; `url` is set only for a truthy href and is the origin prepended
to the suffix, with no root-relative check. -/
def schedEntry (date : String) (m : SchedMatch) : Option MatchEntry :=
  match m.anchor with
  | none => none
  | some a =>
    let url := match a.href with
      | some h => if h ≠ "" then some ("https://www.cricbuzz.com" ++ h) else none
      | none => none
    some ⟨date, pyStrip a.text, url, m.venue.map pyStrip⟩

/-! ## Unhandled Python exceptions

Exception kinds that can escape a tool (or abort a `try` block) during
document traversal: `None.attr` raises `AttributeError`, out-of-range
list subscripts raise `IndexError`. -/

inductive PyErr where
  | attributeError
  | indexError
deriving DecidableEq

/-- `str(e)` for the stringified exception interpolated into messages. -/
def pyErrName : PyErr → String
  | .attributeError => "AttributeError"
  | .indexError => "IndexError"

/-! ## `get_icc_rankings` (cricket_server.py lines 433-532)

The rankings page document is modelled as a map from a `ng-show` format
key to an optional container; a container carries both row shapes, the
code reading the one its `category` branch selects.  `find(...)` results
that the code immediately dereferences are `Option`s: `none` makes the
row parser throw `AttributeError` (caught by the surrounding `try`, which
converts it into the error record). -/

/-- A team row (lines 494-505): `find` texts plus the
`find_all("div", class_="cb-col cb-col-14 cb-lst-itm-sm")` list indexed
at 0 (rating) and 1 (points). -/
structure TeamRowDoc where
  posText : Option String
  teamText : Option String
  itm14 : List String
deriving DecidableEq

/-- The `cb-rank-plyr` block of a player row: anchor text and country div
text, each possibly absent. -/
structure PlyrInfoDoc where
  anchorText : Option String
  countryText : Option String
deriving DecidableEq

/-- A player row (lines 510-523). -/
structure PlayerRowDoc where
  posText : Option String
  ratingText : Option String
  info : Option PlyrInfoDoc
deriving DecidableEq

/-- A per-format rankings container. -/
structure RankContainer where
  teamRows : List TeamRowDoc
  playerRows : List PlayerRowDoc
deriving DecidableEq

/-- The fetched rankings page: lookup of the
`ng-show: 'KEY' == act_rank_format` container by KEY. -/
structure RankPage where
  containers : String → Option RankContainer

/-- An extracted ranking row, either shape. -/
inductive RankRow where
  | team (position teamName rating points : String)
  | player (position playerName country rating : String)
deriving DecidableEq

def parseTeamRow (r : TeamRowDoc) : Except PyErr RankRow :=
  match r.posText with
  | none => .error .attributeError
  | some p =>
    match r.teamText with
    | none => .error .attributeError
    | some t =>
      match r.itm14[0]? with
      | none => .error .indexError
      | some rat =>
        match r.itm14[1]? with
        | none => .error .indexError
        | some pts => .ok (.team (pyStrip p) (pyStrip t) (pyStrip rat) (pyStrip pts))

def parsePlayerRow (r : PlayerRowDoc) : Except PyErr RankRow :=
  match r.posText with
  | none => .error .attributeError
  | some p =>
    match r.ratingText with
    | none => .error .attributeError
    | some rat =>
      match r.info with
      | none => .error .attributeError
      | some pi =>
        match pi.anchorText with
        | none => .error .attributeError
        | some nm =>
          match pi.countryText with
          | none => .error .attributeError
          | some ctry => .ok (.player (pyStrip p) (pyStrip nm) (pyStrip ctry) (pyStrip rat))

/-- Line 451: the valid-category list. -/
def validCategories : List String := ["batting", "bowling", "all-rounder", "teams"]

/-- Line 452: the rejection message. -/
def invalidCategoryMsg : String :=
  "Invalid category. Choose from 'batting', 'bowling', 'all-rounder', 'teams'."

/-- Lines 470-476: `category_map`; `.get` yields `None` when absent
(unreachable after validation), which an f-string renders as `"None"`. -/
def categoryMap (c : String) : Option String :=
  if c = "batting" then some "batsmen"
  else if c = "bowling" then some "bowlers"
  else if c = "all-rounder" then some "allrounders"
  else if c = "teams" then some "teams"
  else none

/-- Lines 479-481: `f"{angular_category}-{f}s"`, with the (no-op)
special case for `t20`. -/
def formatKey (category f : String) : String :=
  let ang := (categoryMap category).getD "None"
  if f = "t20" then ang ++ "-t20s" else ang ++ "-" ++ f ++ "s"

/-- Line 467: the formats scraped, in loop order. -/
def rankFormats : List String := ["test", "odi", "t20"]

/-- Lines 454-456: `url_category` (the conditional is a no-op) and the
page URL. -/
def rankLink (category : String) : String :=
  "https://www.cricbuzz.com/cricket-stats/icc-rankings/men/"
    ++ (if category = "all-rounder" then "all-rounder" else category)

/-- Lines 491-523: parse all rows of one format container, the branch
chosen by `category == "teams"`. -/
def parseContainer (category : String) (cont : RankContainer) : Except PyErr (List RankRow) :=
  if category = "teams" then cont.teamRows.mapM parseTeamRow
  else cont.playerRows.mapM parsePlayerRow

/-- Lines 478-525: the per-format loop.  A missing container is skipped
(`continue`), so its format key never enters the result; any row error
aborts the whole `try`. -/
def parseFormatsAux (category : String) (page : RankPage) :
    List String → Except PyErr (List (String × List RankRow))
  | [] => .ok []
  | f :: rest =>
    match page.containers (formatKey category f) with
    | none => parseFormatsAux category page rest
    | some cont =>
      match parseContainer category cont with
      | .error e => .error e
      | .ok rows =>
        match parseFormatsAux category page rest with
        | .error e => .error e
        | .ok tail => .ok ((f, rows) :: tail)

/-- Result of `get_icc_rankings`: the error record or the rankings dict
(insertion-ordered association list). -/
inductive IccResult where
  | error (msg : String)
  | ok (rankings : List (String × List RankRow))
deriving DecidableEq

/-- `get_icc_rankings(category)`.  `fetch` is the network boundary
(`requests.get` + parse); the second component is the list of URLs
fetched. -/
def get_icc_rankings (category : String) (fetch : String → Except String RankPage) :
    IccResult × List String :=
  if category ∈ validCategories then
    match fetch (rankLink category) with
    | .error e => (.error ("Request failed: " ++ e), [rankLink category])
    | .ok page =>
      match parseFormatsAux category page rankFormats with
      | .error e => (.error ("An error occurred: " ++ pyErrName e), [rankLink category])
      | .ok entries => (.ok entries, [rankLink category])
  else (.error invalidCategoryMsg, [])

/-! ## `get_match_details` (cricket_server.py lines 225-326)

After the URL guard and the fetch (whose four `except` arms all return an
error record), the scorecard walk is total: every positional access is
behind a length test and every `find` result is behind a truthiness test,
so this parse never throws.  A row is the list of its column texts. -/

/-- One `inning_N` div: optional header text, the candidate batting rows
(each row's `cb-col cb-col-w-` column texts), and the optional
`cb-col-bowlers` section with its `cb-scrd-itms` rows. -/
structure InningDoc where
  titleText : Option String
  batRows : List (List String)
  bowlersRows : Option (List (List String))
deriving DecidableEq

/-- The fetched match page. -/
structure MatchPage where
  titleText : Option String
  resultText : Option String
  innings : List InningDoc
deriving DecidableEq

structure BatRec where
  player : String
  dismissal : String
  runs : String
  balls : String
  fours : String
  sixes : String
  strikeRate : String
deriving DecidableEq

structure BowlRec where
  player : String
  overs : String
  maidens : String
  runs : String
  wickets : String
  economy : String
deriving DecidableEq

/-- The record built at lines 290-298 (assumes `7 ≤ cols.length`). -/
def mkBatRec (cols : List String) : BatRec :=
  ⟨pyStrip (cols.headD ""), pyStrip (cols.getD 1 ""), pyStrip (cols.getD 2 ""),
   pyStrip (cols.getD 3 ""), pyStrip (cols.getD 4 ""), pyStrip (cols.getD 5 ""),
   pyStrip (cols.getD 6 "")⟩

/-- The record built at lines 314-321 (assumes `6 ≤ cols.length`). -/
def mkBowlRec (cols : List String) : BowlRec :=
  ⟨pyStrip (cols.headD ""), pyStrip (cols.getD 1 ""), pyStrip (cols.getD 2 ""),
   pyStrip (cols.getD 3 ""), pyStrip (cols.getD 4 ""), pyStrip (cols.getD 5 "")⟩

/-- Lines 280-298: one batting candidate row.  Header rows (first cell's
lowercase text contains "batsman", at least two columns) are skipped;
rows shorter than 7 columns are skipped; the "Extras" row and empty names
are skipped. -/
def rowToBat (cols : List String) : Option BatRec :=
  if 1 < cols.length ∧ containsSub (pyLower (cols.headD "")) "batsman" = true then none
  else if 7 ≤ cols.length then
    let playerName := pyStrip (cols.headD "")
    if containsSub playerName "Extras" = true ∨ playerName = "" then none
    else some (mkBatRec cols)
  else none

/-- Lines 304-321: one bowling candidate row, with the "bowler" header
label and a 6-column minimum. -/
def rowToBowl (cols : List String) : Option BowlRec :=
  if 1 < cols.length ∧ containsSub (pyLower (cols.headD "")) "bowler" = true then none
  else if 6 ≤ cols.length then
    let playerName := pyStrip (cols.headD "")
    if playerName = "" then none
    else some (mkBowlRec cols)
  else none

/-- The batting list of one innings. -/
def extractBatting (rows : List (List String)) : List BatRec :=
  rows.filterMap rowToBat

/-- The bowling list of one innings. -/
def extractBowling (rows : List (List String)) : List BowlRec :=
  rows.filterMap rowToBowl

structure InningData where
  title : Option String
  batting : List BatRec
  bowling : List BowlRec
deriving DecidableEq

/-- Lines 270-323 for one innings div; a missing `cb-col-bowlers` section
leaves the bowling list empty. -/
def parseInning (d : InningDoc) : InningData :=
  ⟨d.titleText.map pyStrip,
   extractBatting d.batRows,
   extractBowling (d.bowlersRows.getD [])⟩

/-- The match-details dict; the scorecard keys `inning_1`, `inning_2`, ...
are the positions in the list. -/
structure MatchData where
  title : Option String
  result : Option String
  scorecard : List InningData
deriving DecidableEq

/-- Lines 255-326: the whole (total) parse after a successful fetch. -/
def parseMatchPage (p : MatchPage) : MatchData :=
  ⟨p.titleText.map pyStrip, p.resultText.map pyStrip, p.innings.map parseInning⟩

inductive MDResult where
  | error (msg : String)
  | ok (data : MatchData)
deriving DecidableEq

/-- `get_match_details(match_url)`.  `fetch` models `requests.get` plus
soup construction; its `.error` carries the formatted message of the
`except` arm that caught it (lines 246-253).  Second component: URLs
fetched. -/
def get_match_details (matchUrl : String) (fetch : String → Except String MatchPage) :
    MDResult × List String :=
  if matchUrl = "" ∨ containsSub matchUrl "cricbuzz.com" = false then
    (.error "A valid Cricbuzz match URL is required.", [])
  else
    match fetch matchUrl with
    | .error e => (.error e, [matchUrl])
    | .ok page => (.ok (parseMatchPage page), [matchUrl])

/-! ## `get_player_stats` (cricket_server.py lines 22-168)

The search and the profile fetch sit in `try` blocks (lines 42-53 and
56-67) and are converted to error records, but the whole document walk
(lines 69-168) is outside any `try`: a missing node or a short row there
raises, so the parse is modelled in `Except PyErr` and the tool's result
type is `Except PyErr PlayerResult` — `.error` is an exception escaping
the tool. -/

/-- The `cb-col cb-col-100 cb-bg-white` block: h1/h3 texts (dereferenced
unconditionally) and the img src list. -/
structure PCDoc where
  h1Text : Option String
  h3Text : Option String
  imgs : List String
deriving DecidableEq

/-- The `div#playerProfile` block; line 71 dereferences its inner
`find` result. -/
structure ProfileDoc where
  pc : Option PCDoc
deriving DecidableEq

/-- One `cb-plyr-tbl` summary table: `find("tbody")` then rows of td
texts. -/
structure StatsTableDoc where
  tbodyRows : Option (List (List String))
deriving DecidableEq

/-- The profile page: `find("div", id="playerProfile")`, the
`cb-col-60 cb-lst-itm-sm` texts, the six ranking div texts, and the
summary tables. -/
structure PlayerPage where
  playerProfile : Option ProfileDoc
  personal : List String
  icc : List String
  summary : List StatsTableDoc
deriving DecidableEq

structure BatSummary where
  matchesPlayed : String
  runs : String
  highestScore : String
  average : String
  strikeRate : String
  hundreds : String
  fifties : String
deriving DecidableEq

structure BowlSummary where
  balls : String
  runs : String
  wickets : String
  bestBowlingInnings : String
  economy : String
  fiveWickets : String
deriving DecidableEq

structure RankTriple where
  test : String
  odi : String
  t20 : String
deriving DecidableEq

inductive PlayerResult where
  | error (msg : String)
  | full (name country : String) (image : Option String) (role : String)
      (battingRank bowlingRank : RankTriple)
      (battingStats : List (String × BatSummary))
      (bowlingStats : List (String × BowlSummary))
  | forFormat (name country role : String) (batting : BatSummary)
      (bowling : Option BowlSummary)
deriving DecidableEq

/-- `cols[i]` on a td list: out of range raises `IndexError`. -/
def colAt (cols : List String) (i : Nat) : Except PyErr String :=
  match cols[i]? with
  | some t => pure t
  | none => throw PyErr.indexError

/-- Lines 105-116: one batting summary row (indices 0,1,3,5,6,7,12,11). -/
def parseBatSummaryRow (cols : List String) : Except PyErr (String × BatSummary) := do
  let fmt ← colAt cols 0
  let m ← colAt cols 1
  let r ← colAt cols 3
  let hs ← colAt cols 5
  let avg ← colAt cols 6
  let sr ← colAt cols 7
  let hundreds ← colAt cols 12
  let fifties ← colAt cols 11
  pure (pyLower (pyStrip fmt),
    ⟨pyStrip m, pyStrip r, pyStrip hs, pyStrip avg, pyStrip sr, pyStrip hundreds, pyStrip fifties⟩)

/-- Lines 121-131: one bowling summary row (indices 0,3,4,5,9,7,11). -/
def parseBowlSummaryRow (cols : List String) : Except PyErr (String × BowlSummary) := do
  let fmt ← colAt cols 0
  let b ← colAt cols 3
  let r ← colAt cols 4
  let w ← colAt cols 5
  let bbi ← colAt cols 9
  let econ ← colAt cols 7
  let fw ← colAt cols 11
  pure (pyLower (pyStrip fmt), ⟨pyStrip b, pyStrip r, pyStrip w, pyStrip bbi, pyStrip econ, pyStrip fw⟩)

/-- `x.attr` when `x` may be `None`. -/
def derefOpt {α : Type} (o : Option α) : Except PyErr α :=
  match o with
  | some v => pure v
  | none => throw PyErr.attributeError

/-- `l[i]` when the index may be out of range. -/
def listAt {α : Type} (l : List α) (i : Nat) : Except PyErr α :=
  match l[i]? with
  | some v => pure v
  | none => throw PyErr.indexError

/-- Lines 69-168: the unguarded document walk and result assembly. -/
def parsePlayerPage (playerName : String) (matchFormat : Option String) (page : PlayerPage) :
    Except PyErr PlayerResult := do
  let profile ← derefOpt page.playerProfile
  let pc ← derefOpt profile.pc
  let name ← derefOpt pc.h1Text
  let country ← derefOpt pc.h3Text
  let imageUrl := pc.imgs.head?
  let role := pyStrip (← listAt page.personal 2)
  let tb := pyStrip (← listAt page.icc 0)
  let ob := pyStrip (← listAt page.icc 1)
  let twb := pyStrip (← listAt page.icc 2)
  let tbw := pyStrip (← listAt page.icc 3)
  let obw := pyStrip (← listAt page.icc 4)
  let twbw := pyStrip (← listAt page.icc 5)
  let batting ← listAt page.summary 0
  let bowling ← listAt page.summary 1
  let batRows ← derefOpt batting.tbodyRows
  let battingStats ← batRows.mapM parseBatSummaryRow
  let bowlRows ← derefOpt bowling.tbodyRows
  let bowlingStats ← bowlRows.mapM parseBowlSummaryRow
  match matchFormat with
  | some mf0 =>
    if mf0 ≠ "" then
      let mf := pyLower mf0
      match battingStats.lookup mf with
      | some bs => pure (.forFormat name country role bs (bowlingStats.lookup mf))
      | none => pure (.error ("No " ++ mf ++ " stats found for " ++ playerName))
    else
      pure (.full name country imageUrl role ⟨tb, ob, twb⟩ ⟨tbw, obw, twbw⟩ battingStats bowlingStats)
  | none =>
    pure (.full name country imageUrl role ⟨tb, ob, twb⟩ ⟨tbw, obw, twbw⟩ battingStats bowlingStats)

/-- `get_player_stats(player_name, match_format)`.  `searchRes` models the
`googlesearch.search` call of line 43 (`.error` = exception, caught);
`fetch` models the profile request (lines 56-67, all arms caught).  The
outer `Except PyErr` is an exception escaping the tool. -/
def get_player_stats (playerName : String) (matchFormat : Option String)
    (searchRes : Except String (List String))
    (fetch : String → Except String PlayerPage) : Except PyErr PlayerResult :=
  match searchRes with
  | .error e => .ok (.error ("Search failed: " ++ e))
  | .ok links =>
    match links.find? (fun l => containsSub l "cricbuzz.com/profiles/") with
    | none => .ok (.error "No player profile found")
    | some profileLink =>
      match fetch profileLink with
      | .error e => .ok (.error e)
      | .ok page => parsePlayerPage playerName matchFormat page

/-! ## `get_live_commentary` (cricket_server.py lines 535-678)

Two tiers: the JSON commentary feed (lines 550-597), then HTML scraping
(lines 599-678).  The feed oracle returns `none` when the request/JSON
decode raised or the body was not a dict, otherwise the fields the code
reads.  The page oracle is the `_fetch` helper (`none` = any exception).
The trace lists the feed request, the page requests, and the nested
`get_match_details` call of the empty-events fallback. -/

/-- `re.search(r"/(\d{5,7})/", url)`: leftmost slash followed by a
maximal digit run of length 5-7 followed by a slash; the run is the
captured group. -/
def findIdAux : List Char → Option String
  | [] => none
  | c :: rest =>
    if c = '/' then
      let run := rest.takeWhile isPyDigit
      if 5 ≤ run.length ∧ run.length ≤ 7 ∧ (rest.drop run.length).head? = some '/' then
        some ⟨run⟩
      else findIdAux rest
    else findIdAux rest

/-- Lines 551-554: extract the match id from the URL. -/
def findMatchId (url : String) : Option String := findIdAux url.toList

/-- Line 556: the feed endpoint for a match id. -/
def commApiUrl (matchId : String) : String :=
  "https://www.cricbuzz.com/api/cricket-match/commentary/" ++ matchId

/-- One entry of `commentaryList`; absent `commText`/`event` are the
falsy empty string, `ballNbr` is `None` or a number. -/
structure CommItem where
  commText : String
  event : String
  ballNbr : Option Int
deriving DecidableEq

/-- The decoded feed body (a dict): `matchHeader` fields (absent = falsy
empty string) and `commentaryList` (absent = empty). -/
structure FeedData where
  matchDescription : String
  status : String
  commentaryList : List CommItem
deriving DecidableEq

/-- An output commentary event: `text` always, `event`/`ball` only when
present (lines 586-591). -/
structure CEvent where
  text : String
  event : Option String
  ball : Option Int
deriving DecidableEq

/-- Lines 574-579: title parts joined with " - ", `None` when both are
falsy. -/
def mkFeedTitle (d : FeedData) : Option String :=
  let parts := (if d.matchDescription ≠ "" then [d.matchDescription] else [])
    ++ (if d.status ≠ "" then [d.status] else [])
  if parts = [] then none else some (String.intercalate " - " parts)

/-- Lines 581-591: truncate to `max(0, limit)` items, clean each text,
drop empties, keep `event`/`ballNbr` when truthy/non-`None`. -/
def mkJsonEvents (items : List CommItem) (limit : Int) : List CEvent :=
  (items.take (max 0 limit).toNat).filterMap fun item =>
    let text := _clean_comm_text (pyStrip item.commText)
    if text = "" then none
    else some ⟨text, if item.event ≠ "" then some item.event else none, item.ballNbr⟩

/-- An anchor of the `cb-nav-pills` bar. -/
structure NavLink where
  href : String
  text : String
deriving DecidableEq

/-- A page as seen by the HTML fallback: the nav bar (if found), the
`h1.cb-nav-hdr` text, the four selector candidate text lists in cascade
order, and all div texts for the keyword heuristic. -/
structure HtmlPage where
  navPills : Option (List NavLink)
  titleText : Option String
  sel1 : List String
  comLst : Option (List String)
  sel3 : List String
  sel4 : List String
  divTexts : List String
deriving DecidableEq

/-- Line 617: an anchor pointing at the commentary tab. -/
def isCommLink (a : NavLink) : Bool :=
  containsSub (pyLower a.href) "commentary" || (a.text ≠ "" && containsSub (pyLower a.text) "commentary")

/-- Lines 612-624: resolve the commentary tab URL from the nav bar, or
default to `match_url.rstrip("/") + "/commentary"`. -/
def commentaryUrlOf (matchUrl : String) (p : HtmlPage) : String :=
  match p.navPills with
  | some links =>
    match links.find? isCommLink with
    | some a => resolveHref a.href
    | none => rstripSlash matchUrl ++ "/commentary"
  | none => rstripSlash matchUrl ++ "/commentary"

/-- Lines 645-649: the generic heuristic — block texts longer than 20
characters mentioning a cricket keyword. -/
def heuristicTexts (divTexts : List String) : List String :=
  divTexts.filter fun t =>
    t ≠ "" && 20 < t.length &&
      (containsSub (pyLower t) "ball" || containsSub (pyLower t) "over" || containsSub (pyLower t) "wicket")

/-- Lines 635-649: the selector cascade; each stage runs only while
`candidates` is still empty, so the first non-empty stage wins. -/
def selectCandidates (p : HtmlPage) : List String :=
  if p.sel1 ≠ [] then p.sel1
  else if p.comLst.getD [] ≠ [] then p.comLst.getD []
  else if p.sel3 ≠ [] then p.sel3
  else if p.sel4 ≠ [] then p.sel4
  else heuristicTexts p.divTexts

/-- Lines 651-665: collect events from the candidates, skipping empty
texts, texts starting with "commentary", and texts shorter than 10
characters; stop as soon as `limit` events are gathered. -/
def collectEvents (limit : Int) : List String → List CEvent → List CEvent
  | [], acc => acc
  | t :: rest, acc =>
    if t = "" then collectEvents limit rest acc
    else if pyStartsWith (pyLower t) "commentary" then collectEvents limit rest acc
    else if t.length < 10 then collectEvents limit rest acc
    else
      let acc2 := acc ++ [⟨t, none, none⟩]
      if limit ≤ (acc2.length : Int) then acc2 else collectEvents limit rest acc2

/-- Result of `get_live_commentary`. -/
inductive CommResult where
  | error (msg : String)
  | ok (title : Option String) (commentaryUrl : String) (events : List CEvent)
      (note : Option String) (fallbackDetails : Option MatchData)
deriving DecidableEq

/-- A network interaction in the trace. -/
inductive Ev where
  | feed (url : String)
  | html (url : String)
  | details (url : String)
deriving DecidableEq

def noCommentaryNote : String :=
  "No commentary items found. This match may not be live or commentary may not be available."

/-- Lines 599-678: the HTML fallback tier.  `pre` is the already-issued
feed request, so traces show it first. -/
def commHtmlPath (matchUrl : String) (limit : Int)
    (pageFetch : String → Option HtmlPage)
    (detailsFn : String → MDResult) (pre : Ev) : CommResult × List Ev :=
  match pageFetch matchUrl with
  | none =>
    (.error "Failed to load match page. The match might not be live or the URL may be incorrect.",
     [pre, Ev.html matchUrl])
  | some page =>
    let curl := commentaryUrlOf matchUrl page
    match pageFetch curl with
    | none =>
      (.error "Failed to load commentary page. This match may not have live commentary available.",
       [pre, Ev.html matchUrl, Ev.html curl])
    | some cpage =>
      let title := cpage.titleText.map pyStrip
      let events := collectEvents limit (selectCandidates cpage) []
      if events = [] then
        match detailsFn matchUrl with
        | .ok md =>
          (.ok title curl events (some noCommentaryNote) (some md),
           [pre, Ev.html matchUrl, Ev.html curl, Ev.details matchUrl])
        | .error _ =>
          (.ok title curl events (some noCommentaryNote) none,
           [pre, Ev.html matchUrl, Ev.html curl, Ev.details matchUrl])
      else (.ok title curl events none none, [pre, Ev.html matchUrl, Ev.html curl])

/-- `get_live_commentary(match_url, limit)`.  `feedFetch` models lines
557-562 (`none` = request/decode exception or non-dict body); the JSON
tier answers only when `commentaryList` is truthy, otherwise the HTML
tier runs. -/
def get_live_commentary (matchUrl : String) (limit : Int)
    (feedFetch : String → Option FeedData)
    (pageFetch : String → Option HtmlPage)
    (detailsFn : String → MDResult) : CommResult × List Ev :=
  if matchUrl = "" ∨ containsSub matchUrl "cricbuzz.com" = false then
    (.error "A valid Cricbuzz match URL is required.", [])
  else
    match findMatchId matchUrl with
    | none => (.error "Could not extract match id from URL.", [])
    | some mid =>
      let apiUrl := commApiUrl mid
      match feedFetch apiUrl with
      | some d =>
        if d.commentaryList ≠ [] then
          (.ok (mkFeedTitle d) matchUrl (mkJsonEvents d.commentaryList limit) none none,
           [Ev.feed apiUrl])
        else commHtmlPath matchUrl limit pageFetch detailsFn (Ev.feed apiUrl)
      | none => commHtmlPath matchUrl limit pageFetch detailsFn (Ev.feed apiUrl)

/-! ## `web_search` (cricket_server.py lines 681-722) -/

/-- A search result item or the error record. -/
inductive SearchItem where
  | error (msg : String)
  | item (url : String) (title : String) (snippet : String)
deriving DecidableEq

/-- The page visited per result URL: `<title>` text and the description
meta content, when found. -/
structure PageMeta where
  titleText : Option String
  descContent : Option String
deriving DecidableEq

/-- Line 703: `max(1, min(num_results, 10))`. -/
def clamp10 (n : Int) : Int := max 1 (min n 10)

/-- Lines 697-699: strip the query and apply the (truthy) site filter. -/
def buildQuery (query : String) (siteFilter : Option String) : String :=
  let q := pyStrip query
  match siteFilter with
  | some s => if s ≠ "" then "site:" ++ s ++ " " ++ q else q
  | none => q

/-- Lines 707-720: one result item; any fetch failure degrades to
`title = url`, empty snippet. -/
def metaItem (fetchMeta : String → Option PageMeta) (url : String) : SearchItem :=
  match fetchMeta url with
  | none => .item url url ""
  | some m =>
    let title := match m.titleText with
      | some t => if t ≠ "" then pyStrip t else url
      | none => url
    let snippet := match m.descContent with
      | some c => if c ≠ "" then pyStrip c else ""
      | none => ""
    .item url title snippet

/-- `web_search(query, num_results, site_filter)`.  `searchFn` models
`googlesearch.search` (given the query and the requested result count);
`fetchMeta` the per-result page fetch.  The second component records the
count passed to the search provider (`none` = no search issued). -/
def web_search (query : String) (numResults : Int) (siteFilter : Option String)
    (searchFn : String → Nat → Except String (List String))
    (fetchMeta : String → Option PageMeta) : List SearchItem × Option Nat :=
  if query = "" then ([.error "query is required"], none)
  else
    let req := (clamp10 numResults).toNat
    match searchFn (buildQuery query siteFilter) req with
    | .error e => ([.error ("Search failed: " ++ e)], some req)
    | .ok links => (links.map (metaItem fetchMeta), some req)

/-! ## Supporting lemmas -/

/-- The head surviving `dropWhile p` falsifies `p`. -/
theorem head?_dropWhile_false (p : Char → Bool) :
    ∀ (l : List Char) (c : Char), (l.dropWhile p).head? = some c → p c = false := by
  intro l
  induction l with
  | nil => intro c h; simp [List.dropWhile] at h
  | cons a as ih =>
    intro c h
    by_cases ha : p a = true
    · rw [List.dropWhile_cons, if_pos ha] at h
      exact ih c h
    · rw [List.dropWhile_cons, if_neg ha] at h
      simp at h
      rw [← h]
      exact Bool.not_eq_true _ |>.mp ha

/-- A nonempty suffix shares the last element of the whole list. -/
theorem getLast?_of_suffix {l t : List Char} {c : Char}
    (hs : l <:+ t) (h : l.getLast? = some c) : t.getLast? = some c := by
  obtain ⟨u, hu⟩ := hs
  have hne : l ≠ [] := by
    intro he
    rw [he] at h
    simp at h
  rw [← hu, List.getLast?_append_of_ne_nil u hne]
  exact h

/-- Character pairs with at most one whitespace member. -/
def noWsPair (a b : Char) : Prop := ¬(isPySpace a = true ∧ isPySpace b = true)

theorem noWsPair_flip {a b : Char} (h : noWsPair a b) : noWsPair b a := by
  intro hc
  exact h ⟨hc.2, hc.1⟩

/-- `collapseWsAux` never emits two adjacent whitespace characters, and
with the flag set its output starts with a non-whitespace character. -/
theorem collapseWsAux_chain :
    ∀ (l : List Char) (b : Bool),
      List.Chain' noWsPair (collapseWsAux b l)
      ∧ (∀ c, b = true → (collapseWsAux b l).head? = some c → isPySpace c = false) := by
  intro l
  induction l with
  | nil => intro b; simp [collapseWsAux]
  | cons a as ih =>
    intro b
    by_cases ha : isPySpace a = true
    · cases b with
      | true =>
        have := ih true
        simpa [collapseWsAux, ha] using this
      | false =>
        constructor
        · rw [show collapseWsAux false (a :: as) = ' ' :: collapseWsAux true as by
            simp [collapseWsAux, ha]]
          rw [List.chain'_cons']
          refine ⟨?_, (ih true).1⟩
          intro c hc
          have hcs := (ih true).2 c rfl hc
          intro hcontra
          rw [hcs] at hcontra
          exact absurd hcontra.2 (by simp)
        · intro c hb
          exact absurd hb (by simp)
    · have hout : collapseWsAux b (a :: as) = a :: collapseWsAux false as := by
        cases b <;> simp [collapseWsAux, ha]
      constructor
      · rw [hout, List.chain'_cons']
        refine ⟨?_, (ih false).1⟩
        intro c _
        intro hcontra
        exact ha hcontra.1
      · intro c _ hc
        rw [hout] at hc
        simp at hc
        rw [← hc]
        exact Bool.not_eq_true _ |>.mp ha

/-- `pyStripChars` preserves the no-adjacent-whitespace invariant. -/
theorem pyStripChars_chain {l : List Char} (h : List.Chain' noWsPair l) :
    List.Chain' noWsPair (pyStripChars l) := by
  unfold pyStripChars
  rw [List.chain'_reverse]
  have h1 : List.Chain' noWsPair (l.dropWhile isPySpace) := by
    obtain ⟨u, hu⟩ := List.dropWhile_suffix (l := l) isPySpace
    rw [← hu] at h
    exact (List.chain'_append.mp h).2.1
  have h2 : List.Chain' noWsPair (l.dropWhile isPySpace).reverse := by
    rw [List.chain'_reverse]
    exact h1.imp fun _ _ => noWsPair_flip
  obtain ⟨u, hu⟩ := List.dropWhile_suffix (l := (l.dropWhile isPySpace).reverse) isPySpace
  rw [← hu] at h2
  exact ((List.chain'_append.mp h2).2.1).imp fun _ _ => noWsPair_flip

/-- Both ends of `pyStripChars` output are non-whitespace. -/
theorem pyStripChars_ends (l : List Char) (c : Char) :
    ((pyStripChars l).head? = some c → isPySpace c = false)
    ∧ ((pyStripChars l).getLast? = some c → isPySpace c = false) := by
  constructor
  · intro h
    rw [pyStripChars, List.head?_reverse] at h
    have hsuf := List.dropWhile_suffix (l := (l.dropWhile isPySpace).reverse) isPySpace
    have := getLast?_of_suffix hsuf h
    rw [List.getLast?_reverse] at this
    exact head?_dropWhile_false isPySpace _ c this
  · intro h
    rw [pyStripChars, List.getLast?_reverse] at h
    exact head?_dropWhile_false isPySpace _ c h

/-! ## Claim theorems -/

/-- C7: the commentary text normalizer removes the `[A-Z]\d\$` markers
(leftmost, non-overlapping, as `re.sub` does), collapses every whitespace
run to a single space (no two adjacent whitespace characters survive),
and trims both ends; in particular
`_clean_comm_text "B0$Good ball I0$ by bowler" = "Good ball by bowler"`. -/
theorem C7_clean_comm_text_spec :
    _clean_comm_text "B0$Good ball I0$ by bowler" = "Good ball by bowler"
    ∧ (∀ (u d : Char) (s : List Char), isPyUpper u = true → isPyDigit d = true →
        removeMarkers (u :: d :: '$' :: s) = removeMarkers s)
    ∧ (∀ s : String, List.Chain' noWsPair (_clean_comm_text s).toList)
    ∧ (∀ (s : String) (c : Char),
        ((_clean_comm_text s).toList.head? = some c → isPySpace c = false)
        ∧ ((_clean_comm_text s).toList.getLast? = some c → isPySpace c = false)) := by
  refine ⟨by decide, ?_, ?_, ?_⟩
  · intro u d s hu hd
    simp [removeMarkers, hu, hd]
  · intro s
    have : (_clean_comm_text s).toList
        = pyStripChars (collapseWsAux false (removeMarkers s.toList)) := rfl
    rw [this]
    exact pyStripChars_chain (collapseWsAux_chain (removeMarkers s.toList) false).1
  · intro s c
    have heq : (_clean_comm_text s).toList
        = pyStripChars (collapseWsAux false (removeMarkers s.toList)) := rfl
    rw [heq]
    exact pyStripChars_ends _ c

/-- C7 witness: the marker-removal clause applied at a concrete marker. -/
theorem C7_witness :
    isPyUpper 'I' = true ∧ isPyDigit '0' = true
    ∧ removeMarkers ('I' :: '0' :: '$' :: " by".toList) = removeMarkers " by".toList :=
  ⟨by decide, by decide,
   C7_clean_comm_text_spec.2.1 'I' '0' " by".toList (by decide) (by decide)⟩

/-- A string starting with "https://" does not start with "/". -/
theorem pyStartsWith_https_not_slash (u : String) (h : pyStartsWith u "https://" = true) :
    pyStartsWith u "/" = false := by
  unfold pyStartsWith at *
  cases hl : u.toList with
  | nil => rw [hl] at h; simp [List.isPrefixOf] at h
  | cons a as =>
    rw [hl] at h
    simp [List.isPrefixOf] at h ⊢
    rcases h with ⟨h1, _⟩
    intro hc
    exact absurd (h1.trans hc.symm) (by decide)

/-- C5 counterexample: the claim quantifies over both resolution sites,
but `get_cricket_schedule` (line 207) prefixes the origin even to an
href that does not start with "/", so an absolute URL is not left
unchanged there. -/
theorem C5_counterexample_schedule_prefixes_absolute :
    pyStartsWith "https://x/y" "/" = false
    ∧ schedEntry "Mon" ⟨some ⟨"m", some "https://x/y"⟩, none⟩
        = some ⟨"Mon", "m", some "https://www.cricbuzz.comhttps://x/y", none⟩
    ∧ ("https://www.cricbuzz.comhttps://x/y" : String) ≠ "https://x/y" := by
  exact ⟨by decide, by decide, by decide⟩

/-- C5 (amended): `get_live_commentary`'s href resolution prefixes the
origin exactly when the href starts with "/" and is the identity — hence
idempotent — on absolute URLs; `get_cricket_schedule`'s URL construction
instead prefixes the origin to every truthy href suffix unconditionally. -/
theorem C5_resolution (href u date : String) :
    (pyStartsWith href "/" = true → resolveHref href = "https://www.cricbuzz.com" ++ href)
    ∧ (pyStartsWith href "/" = false → resolveHref href = href)
    ∧ (pyStartsWith u "https://" = true →
        resolveHref u = u ∧ resolveHref (resolveHref u) = resolveHref u)
    ∧ (∀ (m : SchedMatch) (a : SchedAnchor), m.anchor = some a → a.href = some href →
        href ≠ "" →
        ∃ e, schedEntry date m = some e
          ∧ e.url = some ("https://www.cricbuzz.com" ++ href)) := by
  refine ⟨?_, ?_, ?_, ?_⟩
  · intro h
    simp [resolveHref, h]
  · intro h
    simp [resolveHref, h]
  · intro h
    have hns := pyStartsWith_https_not_slash u h
    have hid : resolveHref u = u := by simp [resolveHref, hns]
    exact ⟨hid, by rw [hid, hid]⟩
  · intro m a hm ha hne
    refine ⟨⟨date, pyStrip a.text, some ("https://www.cricbuzz.com" ++ href),
      m.venue.map pyStrip⟩, ?_, rfl⟩
    simp [schedEntry, hm, ha, hne]

/-- C5 witness. -/
theorem C5_witness :
    pyStartsWith "/path" "/" = true
    ∧ resolveHref "/path" = "https://www.cricbuzz.com" ++ "/path"
    ∧ pyStartsWith "https://x/y" "https://" = true
    ∧ resolveHref "https://x/y" = "https://x/y" :=
  ⟨by decide, (C5_resolution "/path" "u" "d").1 (by decide), by decide,
   ((C5_resolution "h" "https://x/y" "d").2.2.1 (by decide)).1⟩

/-- C1: an invalid rankings category is rejected with the enumerated
valid set in the message and no fetch is performed. -/
theorem C1_invalid_category_rejected_before_fetch
    (category : String) (fetch : String → Except String RankPage)
    (h : category ∉ validCategories) :
    get_icc_rankings category fetch = (.error invalidCategoryMsg, [])
    ∧ ∀ c ∈ validCategories, containsSub invalidCategoryMsg c = true := by
  constructor
  · simp [get_icc_rankings, h]
  · decide

/-- C1 witness. -/
theorem C1_witness :
    "ranking" ∉ validCategories
    ∧ get_icc_rankings "ranking" (fun _ => .error "net down") = (.error invalidCategoryMsg, []) :=
  ⟨by decide,
   (C1_invalid_category_rejected_before_fetch "ranking" (fun _ => .error "net down")
     (by decide)).1⟩

/-- The keys produced by the per-format loop are exactly the formats
whose container is present, in loop order. -/
theorem parseFormatsAux_keys (category : String) (page : RankPage) :
    ∀ (fs : List String) (entries : List (String × List RankRow)),
      parseFormatsAux category page fs = .ok entries →
      entries.map Prod.fst
        = fs.filter (fun f => (page.containers (formatKey category f)).isSome) := by
  intro fs
  induction fs with
  | nil =>
    intro entries h
    simp [parseFormatsAux] at h
    simp [← h]
  | cons f rest ih =>
    intro entries h
    rw [parseFormatsAux] at h
    cases hc : page.containers (formatKey category f) with
    | none =>
      rw [hc] at h
      have := ih entries h
      simp [List.filter_cons, hc, this]
    | some cont =>
      rw [hc] at h
      dsimp only at h
      cases hp : parseContainer category cont with
      | error e => rw [hp] at h; cases h
      | ok rows =>
        rw [hp] at h
        cases hr : parseFormatsAux category page rest with
        | error e => rw [hr] at h; cases h
        | ok tail =>
          rw [hr] at h
          cases h
          have := ih tail hr
          simp [List.filter_cons, hc, this]

/-- A page carrying no format containers: the fetch succeeds but every
`format_container` lookup misses, so every format is skipped. -/
def noContainersPage : RankPage := ⟨fun _ => none⟩

/-- C2 counterexample: with a successful fetch of a page in which no
format container is found, `get_icc_rankings "batting"` returns an empty
mapping, not one with key set {test, odi, t20}. -/
theorem C2_counterexample_missing_containers :
    get_icc_rankings "batting" (fun _ => .ok noContainersPage)
      = (.ok [], [rankLink "batting"])
    ∧ (([] : List (String × List RankRow)).map Prod.fst ≠ ["test", "odi", "t20"]) :=
  ⟨rfl, by decide⟩

/-- C2 (amended): for a valid category, a successful fetch, and a parse
that raises nothing, the returned mapping's keys are exactly the formats
among test, odi, t20 whose container is present on the page (in that
order); in particular the key set is exactly {test, odi, t20} whenever
all three containers are present. -/
theorem C2_keys_are_present_formats
    (category : String) (fetch : String → Except String RankPage) (page : RankPage)
    (entries : List (String × List RankRow))
    (hcat : category ∈ validCategories)
    (hfetch : fetch (rankLink category) = .ok page)
    (hparse : parseFormatsAux category page rankFormats = .ok entries) :
    get_icc_rankings category fetch = (.ok entries, [rankLink category])
    ∧ entries.map Prod.fst
        = rankFormats.filter (fun f => (page.containers (formatKey category f)).isSome)
    ∧ ((∀ f ∈ rankFormats, (page.containers (formatKey category f)).isSome) →
        entries.map Prod.fst = ["test", "odi", "t20"]) := by
  refine ⟨?_, ?_, ?_⟩
  · simp [get_icc_rankings, hcat, hfetch, hparse]
  · exact parseFormatsAux_keys category page rankFormats entries hparse
  · intro hall
    rw [parseFormatsAux_keys category page rankFormats entries hparse]
    rw [List.filter_eq_self.mpr (by intro a ha; simpa using hall a ha)]
    rfl

/-- A page on which every container lookup succeeds (with empty row
lists). -/
def allContainersPage : RankPage := ⟨fun _ => some ⟨[], []⟩⟩

/-- C2 witness. -/
theorem C2_witness :
    "batting" ∈ validCategories
    ∧ parseFormatsAux "batting" allContainersPage rankFormats
        = .ok [("test", []), ("odi", []), ("t20", [])]
    ∧ get_icc_rankings "batting" (fun _ => .ok allContainersPage)
        = (.ok [("test", []), ("odi", []), ("t20", [])], [rankLink "batting"]) :=
  ⟨by decide, rfl,
   (C2_keys_are_present_formats "batting" (fun _ => .ok allContainersPage) allContainersPage
     [("test", []), ("odi", []), ("t20", [])] (by decide) rfl rfl).1⟩

/-- A fetched profile page whose HTML carries no `div#playerProfile`
(for example an error or consent interstitial page): `find` yields
`None`. -/
def missingProfilePage : PlayerPage := ⟨none, [], [], []⟩

/-- C3 (code bug evaluated): the claim says tool failures are always
converted into returned error values, but the document walk of
`get_player_stats` (lines 69-168) sits outside every `try` block; on a
fetched page with no `playerProfile` div, line 71 evaluates
`profile.find(...)` with `profile = None` and an `AttributeError`
escapes the tool unhandled. -/
theorem C3_player_stats_raises_on_missing_profile :
    get_player_stats "Virat Kohli" none
      (.ok ["https://www.cricbuzz.com/profiles/1413/virat-kohli"])
      (fun _ => .ok missingProfilePage)
      = .error PyErr.attributeError := rfl

/-- C6: in scorecard extraction, a row whose first cell's lowercased
text contains "batsman" (resp. "bowler") contributes nothing to the
batting (resp. bowling) list, while a row with a real player name and
enough columns is included. -/
theorem C6_header_rows_excluded_players_included
    (pre post : List (List String)) (cols : List String) :
    (containsSub (pyLower (cols.headD "")) "batsman" = true →
      extractBatting (pre ++ cols :: post) = extractBatting pre ++ extractBatting post)
    ∧ (containsSub (pyLower (cols.headD "")) "bowler" = true →
      extractBowling (pre ++ cols :: post) = extractBowling pre ++ extractBowling post)
    ∧ (7 ≤ cols.length → containsSub (pyLower (cols.headD "")) "batsman" = false →
       containsSub (pyStrip (cols.headD "")) "Extras" = false →
       pyStrip (cols.headD "") ≠ "" →
      extractBatting (pre ++ cols :: post)
        = extractBatting pre ++ mkBatRec cols :: extractBatting post)
    ∧ (6 ≤ cols.length → containsSub (pyLower (cols.headD "")) "bowler" = false →
       pyStrip (cols.headD "") ≠ "" →
      extractBowling (pre ++ cols :: post)
        = extractBowling pre ++ mkBowlRec cols :: extractBowling post) := by
  refine ⟨?_, ?_, ?_, ?_⟩
  · intro hc
    have hnone : rowToBat cols = none := by
      by_cases h1 : 1 < cols.length
      · rw [rowToBat, if_pos ⟨h1, hc⟩]
      · have h7 : ¬(7 ≤ cols.length) := by omega
        rw [rowToBat, if_neg (fun hp => h1 hp.1), if_neg h7]
    simp [extractBatting, List.filterMap_append, List.filterMap_cons, hnone]
  · intro hc
    have hnone : rowToBowl cols = none := by
      by_cases h1 : 1 < cols.length
      · rw [rowToBowl, if_pos ⟨h1, hc⟩]
      · have h6 : ¬(6 ≤ cols.length) := by omega
        rw [rowToBowl, if_neg (fun hp => h1 hp.1), if_neg h6]
    simp [extractBowling, List.filterMap_append, List.filterMap_cons, hnone]
  · intro h7 hhdr hextras hname
    have hsome : rowToBat cols = some (mkBatRec cols) := by
      rw [rowToBat, if_neg (fun hp => by rw [hhdr] at hp; exact absurd hp.2 (by simp)),
        if_pos h7]
      rw [if_neg]
      intro hor
      rcases hor with h | h
      · rw [hextras] at h; exact absurd h (by simp)
      · exact hname h
    simp [extractBatting, List.filterMap_append, List.filterMap_cons, hsome]
  · intro h6 hhdr hname
    have hsome : rowToBowl cols = some (mkBowlRec cols) := by
      rw [rowToBowl, if_neg (fun hp => by rw [hhdr] at hp; exact absurd hp.2 (by simp)),
        if_pos h6]
      rw [if_neg hname]
    simp [extractBowling, List.filterMap_append, List.filterMap_cons, hsome]

/-- C6 witness: all four clauses at concrete rows — the "BATSMAN" and
"Bowler" header rows vanish, a 7-column batting row and a 6-column
bowling row survive. -/
theorem C6_witness :
    (containsSub (pyLower "BATSMAN") "batsman" = true
      ∧ extractBatting [["BATSMAN", "R"]] = [])
    ∧ (containsSub (pyLower "Bowler") "bowler" = true
      ∧ extractBowling [["Bowler", "O"]] = [])
    ∧ extractBatting [["V Kohli", "c Smith b Starc", "54", "40", "4", "1", "135.0"]]
        = [mkBatRec ["V Kohli", "c Smith b Starc", "54", "40", "4", "1", "135.0"]]
    ∧ extractBowling [["J Bumrah", "4", "0", "21", "2", "5.25"]]
        = [mkBowlRec ["J Bumrah", "4", "0", "21", "2", "5.25"]] :=
  ⟨⟨by decide,
    (C6_header_rows_excluded_players_included [] [] ["BATSMAN", "R"]).1 (by decide)⟩,
   ⟨by decide,
    (C6_header_rows_excluded_players_included [] [] ["Bowler", "O"]).2.1 (by decide)⟩,
   (C6_header_rows_excluded_players_included [] []
     ["V Kohli", "c Smith b Starc", "54", "40", "4", "1", "135.0"]).2.2.1
     (by decide) (by decide) (by decide) (by decide),
   (C6_header_rows_excluded_players_included [] []
     ["J Bumrah", "4", "0", "21", "2", "5.25"]).2.2.2
     (by decide) (by decide) (by decide)⟩

/-- C10: an empty match URL, or one without "cricbuzz.com", is rejected
by both `get_match_details` and `get_live_commentary` with the
valid-URL error and an empty fetch trace. -/
theorem C10_invalid_match_url_rejected_before_fetch
    (url : String) (limit : Int)
    (fetch : String → Except String MatchPage)
    (feedFetch : String → Option FeedData) (pageFetch : String → Option HtmlPage)
    (detailsFn : String → MDResult)
    (h : url = "" ∨ containsSub url "cricbuzz.com" = false) :
    get_match_details url fetch = (.error "A valid Cricbuzz match URL is required.", [])
    ∧ get_live_commentary url limit feedFetch pageFetch detailsFn
        = (.error "A valid Cricbuzz match URL is required.", []) := by
  constructor
  · rw [get_match_details, if_pos h]
  · rw [get_live_commentary, if_pos h]

/-- C10 witness. -/
theorem C10_witness :
    ("https://example.com/cricket" = ""
      ∨ containsSub "https://example.com/cricket" "cricbuzz.com" = false)
    ∧ get_match_details "https://example.com/cricket" (fun _ => Except.error "net")
        = (.error "A valid Cricbuzz match URL is required.", []) :=
  ⟨by decide,
   (C10_invalid_match_url_rejected_before_fetch "https://example.com/cricket" 20
     (fun _ => Except.error "net") (fun _ => none) (fun _ => none)
     (fun _ => MDResult.error "e") (by decide)).1⟩

/-- The HTML tier's trace always begins with the already-issued feed
request and always contains a page request for the match URL. -/
theorem commHtmlPath_trace (matchUrl : String) (limit : Int)
    (pageFetch : String → Option HtmlPage) (detailsFn : String → MDResult) (pre : Ev) :
    (commHtmlPath matchUrl limit pageFetch detailsFn pre).2.head? = some pre
    ∧ Ev.html matchUrl ∈ (commHtmlPath matchUrl limit pageFetch detailsFn pre).2 := by
  cases h1 : pageFetch matchUrl with
  | none => simp [commHtmlPath, h1]
  | some page =>
    cases h2 : pageFetch (commentaryUrlOf matchUrl page) with
    | none => simp [commHtmlPath, h1, h2]
    | some cpage =>
      by_cases he : collectEvents limit (selectCandidates cpage) [] = []
      · cases h3 : detailsFn matchUrl <;> simp [commHtmlPath, h1, h2, he, h3]
      · simp [commHtmlPath, h1, h2, he]

/-- C4: for a Cricbuzz match URL with a 5-7-digit path segment, the feed
endpoint is the first request; an HTML page request happens exactly when
the feed yields no usable commentary list; and the HTML candidate
selectors win in fixed priority order, first non-empty set taken. -/
theorem C4_feed_first_then_html_cascade
    (url : String) (limit : Int) (mid : String)
    (feedFetch : String → Option FeedData) (pageFetch : String → Option HtmlPage)
    (detailsFn : String → MDResult)
    (hcb : containsSub url "cricbuzz.com" = true)
    (hid : findMatchId url = some mid) :
    ((get_live_commentary url limit feedFetch pageFetch detailsFn).2.head?
        = some (Ev.feed (commApiUrl mid)))
    ∧ ((∃ u, Ev.html u ∈ (get_live_commentary url limit feedFetch pageFetch detailsFn).2)
        ↔ ∀ d, feedFetch (commApiUrl mid) = some d → d.commentaryList = [])
    ∧ (∀ p : HtmlPage,
        (p.sel1 ≠ [] → selectCandidates p = p.sel1)
        ∧ (p.sel1 = [] → p.comLst.getD [] ≠ [] → selectCandidates p = p.comLst.getD [])
        ∧ (p.sel1 = [] → p.comLst.getD [] = [] → p.sel3 ≠ [] → selectCandidates p = p.sel3)
        ∧ (p.sel1 = [] → p.comLst.getD [] = [] → p.sel3 = [] → p.sel4 ≠ [] →
            selectCandidates p = p.sel4)
        ∧ (p.sel1 = [] → p.comLst.getD [] = [] → p.sel3 = [] → p.sel4 = [] →
            selectCandidates p = heuristicTexts p.divTexts)) := by
  have hne : ¬(url = "" ∨ containsSub url "cricbuzz.com" = false) := by
    intro hor
    rcases hor with h | h
    · rw [h] at hcb; exact absurd hcb (by decide)
    · rw [hcb] at h; exact absurd h (by simp)
  refine ⟨?_, ?_, ?_⟩
  · simp only [get_live_commentary, if_neg hne, hid]
    cases hf : feedFetch (commApiUrl mid) with
    | none => exact (commHtmlPath_trace url limit pageFetch detailsFn _).1
    | some d =>
      dsimp only
      by_cases hl : d.commentaryList = []
      · rw [if_neg (not_not_intro hl)]
        exact (commHtmlPath_trace url limit pageFetch detailsFn _).1
      · rw [if_pos hl]
        rfl
  · simp only [get_live_commentary, if_neg hne, hid]
    cases hf : feedFetch (commApiUrl mid) with
    | none =>
      constructor
      · intro _ d hd
        cases hd
      · intro _
        exact ⟨url, (commHtmlPath_trace url limit pageFetch detailsFn _).2⟩
    | some d =>
      dsimp only
      by_cases hl : d.commentaryList = []
      · rw [if_neg (not_not_intro hl)]
        constructor
        · intro _ d2 hd2
          cases hd2
          exact hl
        · intro _
          exact ⟨url, (commHtmlPath_trace url limit pageFetch detailsFn _).2⟩
      · rw [if_pos hl]
        constructor
        · intro hex
          obtain ⟨u, hu⟩ := hex
          simp at hu
        · intro hall
          exact absurd (hall d rfl) hl
  · intro p
    refine ⟨?_, ?_, ?_, ?_, ?_⟩
    · intro h1
      rw [selectCandidates, if_pos h1]
    · intro h1 h2
      rw [selectCandidates, if_neg (by simpa using h1), if_pos h2]
    · intro h1 h2 h3
      rw [selectCandidates, if_neg (by simpa using h1), if_neg (by simpa using h2),
        if_pos h3]
    · intro h1 h2 h3 h4
      rw [selectCandidates, if_neg (by simpa using h1), if_neg (by simpa using h2),
        if_neg (by simpa using h3), if_pos h4]
    · intro h1 h2 h3 h4
      rw [selectCandidates, if_neg (by simpa using h1), if_neg (by simpa using h2),
        if_neg (by simpa using h3), if_neg (by simpa using h4)]

/-- C4 witness. -/
theorem C4_witness :
    containsSub "https://www.cricbuzz.com/live-cricket-scores/123456/ind-vs-aus"
        "cricbuzz.com" = true
    ∧ findMatchId "https://www.cricbuzz.com/live-cricket-scores/123456/ind-vs-aus"
        = some "123456"
    ∧ (get_live_commentary "https://www.cricbuzz.com/live-cricket-scores/123456/ind-vs-aus"
        20 (fun _ => none) (fun _ => none) (fun _ => MDResult.error "e")).2.head?
        = some (Ev.feed (commApiUrl "123456")) :=
  ⟨by decide, by decide,
   (C4_feed_first_then_html_cascade
     "https://www.cricbuzz.com/live-cricket-scores/123456/ind-vs-aus" 20 "123456"
     (fun _ => none) (fun _ => none) (fun _ => MDResult.error "e")
     (by decide) (by decide)).1⟩

/-- The JSON tier emits at most `max(0, limit)` events. -/
theorem mkJsonEvents_length (items : List CommItem) (limit : Int) :
    ((mkJsonEvents items limit).length : Int) ≤ max 0 limit := by
  have h1 : (mkJsonEvents items limit).length ≤ (items.take (max 0 limit).toNat).length :=
    List.length_filterMap_le _ _
  have h2 : (items.take (max 0 limit).toNat).length ≤ (max 0 limit).toNat :=
    List.length_take_le _ _
  omega

/-- The HTML tier's collector stops at `limit` provided the accumulator
is still below it. -/
theorem collectEvents_length (limit : Int) :
    ∀ (cands : List String) (acc : List CEvent), (acc.length : Int) < limit →
      ((collectEvents limit cands acc).length : Int) ≤ limit := by
  intro cands
  induction cands with
  | nil => intro acc h; rw [collectEvents]; omega
  | cons t rest ih =>
    intro acc h
    rw [collectEvents]
    by_cases h1 : t = ""
    · rw [if_pos h1]; exact ih acc h
    · rw [if_neg h1]
      by_cases h2 : pyStartsWith (pyLower t) "commentary" = true
      · rw [if_pos h2]; exact ih acc h
      · rw [if_neg h2]
        by_cases h3 : t.length < 10
        · rw [if_pos h3]; exact ih acc h
        · rw [if_neg h3]
          by_cases h4 : limit ≤ ((acc ++ [(⟨t, none, none⟩ : CEvent)]).length : Int)
          · rw [if_pos h4]
            simp only [List.length_append, List.length_cons, List.length_nil]
            omega
          · rw [if_neg h4]
            refine ih _ ?_
            omega

/-- Events bound for the HTML tier's results. -/
theorem commHtmlPath_events_length (matchUrl : String) (limit : Int)
    (pageFetch : String → Option HtmlPage) (detailsFn : String → MDResult) (pre : Ev)
    (title : Option String) (curl : String) (events : List CEvent)
    (note : Option String) (fb : Option MatchData) (tr : List Ev)
    (hlim : 1 ≤ limit)
    (h : commHtmlPath matchUrl limit pageFetch detailsFn pre
        = (.ok title curl events note fb, tr)) :
    (events.length : Int) ≤ limit := by
  rw [commHtmlPath] at h
  cases h1 : pageFetch matchUrl with
  | none => rw [h1] at h; simp at h
  | some page =>
    rw [h1] at h
    dsimp only at h
    cases h2 : pageFetch (commentaryUrlOf matchUrl page) with
    | none => rw [h2] at h; simp at h
    | some cpage =>
      rw [h2] at h
      dsimp only at h
      by_cases he : collectEvents limit (selectCandidates cpage) [] = []
      · rw [if_pos he] at h
        cases h3 : detailsFn matchUrl with
        | ok md =>
          rw [h3] at h
          have hev : events = collectEvents limit (selectCandidates cpage) [] := by
            have := congrArg Prod.fst h
            simp at this
            exact this.2.2.1.symm
          rw [hev, he]
          simp
          omega
        | error msg =>
          rw [h3] at h
          have hev : events = collectEvents limit (selectCandidates cpage) [] := by
            have := congrArg Prod.fst h
            simp at this
            exact this.2.2.1.symm
          rw [hev, he]
          simp
          omega
      · rw [if_neg he] at h
        have hev : events = collectEvents limit (selectCandidates cpage) [] := by
          have := congrArg Prod.fst h
          simp at this
          exact this.2.2.1.symm
        rw [hev]
        exact collectEvents_length limit (selectCandidates cpage) [] (by simpa using hlim)

/-- C9: with a positive limit, both tiers return at most `limit`
commentary events. -/
theorem C9_commentary_events_bounded_by_limit
    (url : String) (limit : Int)
    (feedFetch : String → Option FeedData) (pageFetch : String → Option HtmlPage)
    (detailsFn : String → MDResult)
    (title : Option String) (curl : String) (events : List CEvent)
    (note : Option String) (fb : Option MatchData) (tr : List Ev)
    (hlim : 1 ≤ limit)
    (h : get_live_commentary url limit feedFetch pageFetch detailsFn
        = (.ok title curl events note fb, tr)) :
    (events.length : Int) ≤ limit := by
  rw [get_live_commentary] at h
  by_cases hg : url = "" ∨ containsSub url "cricbuzz.com" = false
  · rw [if_pos hg] at h
    simp at h
  · rw [if_neg hg] at h
    cases hid : findMatchId url with
    | none => rw [hid] at h; simp at h
    | some mid =>
      rw [hid] at h
      dsimp only at h
      cases hf : feedFetch (commApiUrl mid) with
      | none =>
        rw [hf] at h
        exact commHtmlPath_events_length url limit pageFetch detailsFn _ title curl
          events note fb tr hlim h
      | some d =>
        rw [hf] at h
        dsimp only at h
        by_cases hl : d.commentaryList = []
        · rw [if_neg (not_not_intro hl)] at h
          exact commHtmlPath_events_length url limit pageFetch detailsFn _ title curl
            events note fb tr hlim h
        · rw [if_pos hl] at h
          have hev : events = mkJsonEvents d.commentaryList limit := by
            have := congrArg Prod.fst h
            simp at this
            exact this.2.2.1.symm
          rw [hev]
          have := mkJsonEvents_length d.commentaryList limit
          omega

/-- C9 witness: a concrete feed answer with one event and limit 20. -/
theorem C9_witness :
    (1 : Int) ≤ 20
    ∧ (([⟨"hello there folks", none, none⟩] : List CEvent).length : Int) ≤ 20 :=
  ⟨by decide,
   C9_commentary_events_bounded_by_limit
     "https://www.cricbuzz.com/live-cricket-scores/654321/aus-vs-eng" 20
     (fun _ => some ⟨"", "", [⟨"hello there folks", "", none⟩]⟩)
     (fun _ => none) (fun _ => MDResult.error "e")
     none "https://www.cricbuzz.com/live-cricket-scores/654321/aus-vs-eng"
     [⟨"hello there folks", none, none⟩] none none
     [Ev.feed (commApiUrl "654321")] (by decide) (by decide)⟩

/-- C8: `web_search` asks the provider for `max(1, min(num_results, 10))`
results — a count clamped to [1, 10] — so (provided the provider honours
the requested count) the returned list has at most 10 items; an empty
query yields the single-element error list with no search issued. -/
theorem C8_web_search_clamps_and_bounds
    (query : String) (numResults : Int) (siteFilter : Option String)
    (searchFn : String → Nat → Except String (List String))
    (fetchMeta : String → Option PageMeta)
    (hq : query ≠ "")
    (hlen : ∀ q k links, searchFn q k = .ok links → links.length ≤ k) :
    (web_search query numResults siteFilter searchFn fetchMeta).2
        = some (clamp10 numResults).toNat
    ∧ 1 ≤ clamp10 numResults ∧ clamp10 numResults ≤ 10
    ∧ (web_search query numResults siteFilter searchFn fetchMeta).1.length ≤ 10
    ∧ web_search "" numResults siteFilter searchFn fetchMeta
        = ([.error "query is required"], none) := by
  have hc1 : 1 ≤ clamp10 numResults := le_max_left 1 _
  have hc10 : clamp10 numResults ≤ 10 := by
    rw [clamp10]
    omega
  refine ⟨?_, hc1, hc10, ?_, ?_⟩
  · rw [web_search, if_neg hq]
    dsimp only
    cases hs : searchFn (buildQuery query siteFilter) (clamp10 numResults).toNat with
    | error e => rfl
    | ok links => rfl
  · rw [web_search, if_neg hq]
    dsimp only
    cases hs : searchFn (buildQuery query siteFilter) (clamp10 numResults).toNat with
    | error e => simp
    | ok links =>
      have := hlen _ _ _ hs
      simp only [List.length_map]
      omega
  · rw [web_search, if_pos rfl]

/-- C8 witness. -/
theorem C8_witness :
    ("odi rankings" : String) ≠ ""
    ∧ (web_search "odi rankings" 99 none (fun _ _ => Except.ok []) (fun _ => none)).1.length
        ≤ 10 :=
  ⟨by decide,
   (C8_web_search_clamps_and_bounds "odi rankings" 99 none (fun _ _ => Except.ok [])
     (fun _ => none) (by decide)
     (fun q k links h => by injection h with h2; simp [← h2])).2.2.2.1⟩
